import Mathlib

/-!
Verification of `tide_grabber.py` (WatchFaceKotlin/app/src/main/assets).

The script parses command-line arguments, shells out to wget to download a
tide-prediction text file per request, and validates each saved file by
reading its lines: an empty file yields an error print, otherwise lines at
0-based offsets 3, 5 and 13 are printed.  The embedding below models the
argument resolution, the request sequence of a run (single-request mode and
the auto batch), and the validation step, with Python exception semantics
made explicit: an out-of-bounds subscript is an uncaught IndexError that
terminates the process.  The external wget download is modelled by an oracle
`download` giving the lines the fetch leaves in the request's file.
-/

/-- A single fetch request: the station identifier and year as the script
stores them in `self.station_id` and `self.year`, plus the derived file name
`self.file_name`.  In auto mode the script stores the year as an integer;
every use renders it into a string, so the embedding stores the rendered
form. -/
structure FetchRequest where
  station_id : String
  year : String
  file_name : String
deriving DecidableEq, Repr

/-- The file name computed at lines 28 and 98 of the script by the f-string
tides_..._....txt from the station identifier and the year. -/
def mkFileName (station_id year : String) : String :=
  "tides_" ++ station_id ++ "_" ++ year ++ ".txt"

/-- What one `TideGrabber.parseArgs` call does for a given argument vector:
fetch and validate a single request (the two-positional-argument branch),
print the usage help, or do nothing (the single argument "auto", which the
main block handles itself). -/
inductive ParseAction where
  | fetchOne (req : FetchRequest)
  | noAction
  | help
deriving DecidableEq, Repr

/-- The five lines `TideGrabber.printHelp` (lines 37-45) prints. -/
def printHelpLines : List String :=
  ["To run this script: python3 tide_grabber.py <Station ID> <year> or python3 tide_grabber.py auto",
   "If \x27auto\x27 argument passed in, it will automatically load designated tides",
   "Station ID can be found by visiting https://tidesandcurrents.noaa.gov/map/index.html?type=TidePredictions&region=, then selecting the desired location",
   "Years available are the current year +/- 2 years",
   "Example for Balboa Pier, Newport Beach 2023: python3 tide_grabber.py 9410583 2023"]

/-- `TideGrabber.parseArgs` (lines 21-35), over the full `sys.argv` list,
program name first.  With three entries it stores `sys.argv[1]` and
`sys.argv[2]` verbatim, derives the file name, and fetches and validates
that one request; with two entries it prints help unless the argument is
"auto"; in every other case it prints help. -/
def parseArgs (argv : List String) : ParseAction :=
  if argv.length = 3 then
    ParseAction.fetchOne
      ⟨argv.getD 1 "", argv.getD 2 "", mkFileName (argv.getD 1 "") (argv.getD 2 "")⟩
  else if argv.length = 2 then
    if argv.getD 1 "" ≠ "auto" then ParseAction.help else ParseAction.noAction
  else ParseAction.help

/-- The seven hardcoded station identifiers of the main block, lines
86-92. -/
def tide_spots : List String :=
  ["9410583", "TWC0419", "9410230", "8512354", "8533071", "8652226", "8721649"]

/-- The requests the auto branch of the main block iterates over (lines
94-98): every spot of `tide_spots` paired with every year of the Python
range from `current_year` to `current_year + 5` exclusive, the file name
derived as at line 98. -/
def autoRequests (current_year : Nat) : List FetchRequest :=
  tide_spots.flatMap fun spot =>
    (List.range' current_year 5).map fun year =>
      ⟨spot, toString year, mkFileName spot (toString year)⟩

/-- The auto test of the main block, line 85: exactly two argv entries and
the second equal to "auto". -/
def isAuto (argv : List String) : Bool :=
  argv.length == 2 && argv.getD 1 "" == "auto"

/-- The fetch-and-validate requests one run of the script issues, in order:
the `TideGrabber` constructor runs `parseArgs`, fetching one request in the
two-argument branch, and then the main block (lines 83-101) runs the auto
batch when `isAuto` holds. -/
def mainRequests (argv : List String) (current_year : Nat) : List FetchRequest :=
  (match parseArgs argv with
   | ParseAction.fetchOne req => [req]
   | _ => []) ++
  (if isAuto argv then autoRequests current_year else [])

/-- The observable outcome of one `TideGrabber.checkResult` call (lines
70-80) on the lines read from the saved file: the empty-file error print,
the success print of the lines at offsets 3, 5 and 13, or an uncaught
IndexError raised by the first out-of-bounds subscript in the f-string. -/
inductive CheckOutcome where
  | emptyError
  | success (line3 line5 line13 : String)
  | indexError (index : Nat)
deriving DecidableEq, Repr

/-- `TideGrabber.checkResult`, lines 70-80.  Python evaluates the f-string
subscripts left to right, so the first index at or past the number of lines
raises. -/
def checkResult (lines : List String) : CheckOutcome :=
  if lines.length = 0 then CheckOutcome.emptyError
  else if h3 : 3 < lines.length then
    if h5 : 5 < lines.length then
      if h13 : 13 < lines.length then
        CheckOutcome.success (lines.get ⟨3, h3⟩) (lines.get ⟨5, h5⟩)
          (lines.get ⟨13, h13⟩)
      else CheckOutcome.indexError 13
    else CheckOutcome.indexError 5
  else CheckOutcome.indexError 3

/-- The subscripts `checkResult` performs into the line list, in evaluation
order and the raising one included: none on the empty-file branch, and
otherwise the prefix of 3, 5, 13 up to and including the first out-of-bounds
index. -/
def checkAccesses (lines : List String) : List Nat :=
  if lines.length = 0 then []
  else if 3 < lines.length then
    if 5 < lines.length then [3, 5, 13]
    else [3, 5]
  else [3]

/-- Whether an outcome is an uncaught Python exception, which terminates
the process with a non-zero exit code. -/
def isException : CheckOutcome → Bool
  | CheckOutcome.indexError _ => true
  | _ => false

/-- One fetch-and-validate step per request, in order, with Python
exception semantics: an uncaught IndexError aborts the run, leaving the
later requests unprocessed.  `download` gives the lines the external wget
call leaves in a request's file.  The result lists the outcomes of the
steps that ran. -/
def runBatch (download : FetchRequest → List String) :
    List FetchRequest → List CheckOutcome
  | [] => []
  | req :: rest =>
    let out := checkResult (download req)
    if isException out then [out] else out :: runBatch download rest

/-- The outcomes of a whole run of the script: every request of
`mainRequests` fetched and validated in order, stopping at an uncaught
exception. -/
def programOutcomes (argv : List String) (current_year : Nat)
    (download : FetchRequest → List String) : List CheckOutcome :=
  runBatch download (mainRequests argv current_year)

/-- Whether a run of the script ends in an uncaught exception, that is with
a non-zero process exit code. -/
def exceptionEscapes (argv : List String) (current_year : Nat)
    (download : FetchRequest → List String) : Bool :=
  (programOutcomes argv current_year download).any isException

/-- The help text a run prints: the `printHelp` lines exactly when
`parseArgs` takes a help branch. -/
def consoleHelp (argv : List String) : List String :=
  match parseArgs argv with
  | ParseAction.help => printHelpLines
  | _ => []

/-- Membership in a five-element Python range with free start. -/
theorem mem_range5 (s y : Nat) : y ∈ List.range' s 5 ↔ s ≤ y ∧ y < s + 5 := by
  have h : List.range' s 5 = [s, s + 1, s + 2, s + 3, s + 4] := rfl
  rw [h]
  simp only [List.mem_cons, List.not_mem_nil, or_false]
  omega

/-- Characterisation of the auto batch: its requests are exactly the pairs
of a hardcoded spot with a year of the five-year range. -/
theorem mem_autoRequests (current_year : Nat) (req : FetchRequest) :
    req ∈ autoRequests current_year ↔
      ∃ spot ∈ tide_spots, ∃ y : Nat,
        current_year ≤ y ∧ y < current_year + 5 ∧
        req = ⟨spot, toString y, mkFileName spot (toString y)⟩ := by
  simp only [autoRequests, List.mem_flatMap, List.mem_map]
  constructor
  · rintro ⟨spot, hspot, y, hy, rfl⟩
    have hb := (mem_range5 current_year y).mp hy
    exact ⟨spot, hspot, y, hb.1, hb.2, rfl⟩
  · rintro ⟨spot, hspot, y, hy1, hy2, rfl⟩
    exact ⟨spot, hspot, y, (mem_range5 current_year y).mpr ⟨hy1, hy2⟩, rfl⟩

/-- An empty file takes the error branch of `checkResult`. -/
theorem checkResult_empty (lines : List String) (h : lines.length = 0) :
    checkResult lines = CheckOutcome.emptyError := by
  simp [checkResult, h]

/-- A file of at least 14 lines takes the success branch of `checkResult`,
printing the entries at offsets 3, 5 and 13. -/
theorem checkResult_long (lines : List String) (h : 14 ≤ lines.length) :
    checkResult lines =
      CheckOutcome.success (lines.getD 3 "") (lines.getD 5 "") (lines.getD 13 "") := by
  have h0 : ¬ lines.length = 0 := by omega
  have h3 : 3 < lines.length := by omega
  have h5 : 5 < lines.length := by omega
  have h13 : 13 < lines.length := by omega
  simp [checkResult, h0, h3, h5, h13, List.getD_eq_getElem?_getD,
    List.getElem?_eq_getElem]

/-- A file of 1 to 13 lines makes `checkResult` raise at the first
out-of-bounds subscript of the f-string. -/
theorem checkResult_short (lines : List String) (h1 : 1 ≤ lines.length)
    (h2 : lines.length ≤ 13) :
    checkResult lines = CheckOutcome.indexError
      (if lines.length ≤ 3 then 3 else if lines.length ≤ 5 then 5 else 13) := by
  have h0 : ¬ lines.length = 0 := by omega
  have h13 : ¬ 13 < lines.length := by omega
  by_cases a3 : 3 < lines.length
  · by_cases a5 : 5 < lines.length
    · have b3 : ¬ lines.length ≤ 3 := by omega
      have b5 : ¬ lines.length ≤ 5 := by omega
      simp [checkResult, h0, a3, a5, h13, b3, b5]
    · have b3 : ¬ lines.length ≤ 3 := by omega
      have b5 : lines.length ≤ 5 := by omega
      simp [checkResult, h0, a3, a5, b3, b5]
  · have b3 : lines.length ≤ 3 := by omega
    simp [checkResult, h0, a3, b3]

/-- An outcome of a well-formed file (empty or at least 14 lines) is never
an exception. -/
theorem isException_checkResult_false (lines : List String)
    (h : lines.length = 0 ∨ 14 ≤ lines.length) :
    isException (checkResult lines) = false := by
  rcases h with h | h
  · rw [checkResult_empty lines h]; rfl
  · rw [checkResult_long lines h]; rfl

/-- A batch whose every file is well formed runs to the end with no
uncaught exception. -/
theorem runBatch_all_ok (download : FetchRequest → List String)
    (reqs : List FetchRequest)
    (h : ∀ req ∈ reqs, isException (checkResult (download req)) = false) :
    (runBatch download reqs).any isException = false := by
  induction reqs with
  | nil => rfl
  | cons req rest ih =>
    have h1 := h req (List.mem_cons_self req rest)
    have h2 := ih fun r hr => h r (List.mem_cons_of_mem _ hr)
    simp [runBatch, h1, h2]

/-- A batch of one request validates exactly that request, whatever the
outcome. -/
theorem runBatch_singleton (download : FetchRequest → List String)
    (req : FetchRequest) :
    runBatch download [req] = [checkResult (download req)] := by
  simp only [runBatch]
  split <;> simp [runBatch]

/-- The two-positional-argument branch of `parseArgs` stores both argument
strings verbatim and derives the file name. -/
theorem parseArgs_two (prog a b : String) :
    parseArgs [prog, a, b] = ParseAction.fetchOne ⟨a, b, mkFileName a b⟩ := rfl

/-- A fourteen-line sample file, used to instantiate the success-branch
theorems at a concrete input. -/
def sampleLines : List String := List.replicate 14 "x"

/-- C1 (counterexample): the claim that no exception ever escapes is false.
Running the script on station 9410583 and year 2023 with the download
leaving a one-line file makes `checkResult` raise an uncaught IndexError,
so the run ends with a non-zero exit code. -/
theorem validation_raises_uncaught_error :
    exceptionEscapes ["tide_grabber.py", "9410583", "2023"] 2023
      (fun _ => ["NOAA tide predictions"]) = true := by decide

/-- C1 (amended): no exception escapes on the usage-help path, and none
escapes whenever every downloaded file is empty or has at least 14 lines;
only a saved file of 1 to 13 lines raises. -/
theorem no_exception_for_wellformed_downloads (argv : List String)
    (current_year : Nat) (download : FetchRequest → List String)
    (h : ∀ req ∈ mainRequests argv current_year,
      (download req).length = 0 ∨ 14 ≤ (download req).length) :
    exceptionEscapes argv current_year download = false := by
  unfold exceptionEscapes programOutcomes
  exact runBatch_all_ok download (mainRequests argv current_year)
    fun req hreq => isException_checkResult_false (download req) (h req hreq)

/-- C1 (witness): the amended theorem applied to a single-request run whose
download leaves an empty file. -/
theorem no_exception_for_wellformed_downloads_witness :
    exceptionEscapes ["tide_grabber.py", "9410583", "2023"] 2024
      (fun _ => []) = false :=
  no_exception_for_wellformed_downloads _ _ _ fun _ _ => Or.inl rfl

/-- C2 (counterexample): in auto mode there are 35 requests, but with every
download leaving a one-line file the run produces a single outcome — the
uncaught IndexError of the first step — so the failure of one
fetch-and-validate step does prevent the remaining 34 pairs from being
processed. -/
theorem batch_aborted_by_short_file :
    (mainRequests ["tide_grabber.py", "auto"] 2023).length = 35 ∧
    programOutcomes ["tide_grabber.py", "auto"] 2023 (fun _ => ["x"]) =
      [CheckOutcome.indexError 3] := by decide

/-- C2 (amended): a reported failure — the empty-file error, the only
failure the script reports — never aborts the batch: the loop proceeds to
the next item.  A file of 1 to 13 lines instead raises an uncaught
IndexError that aborts the batch. -/
theorem reported_failure_continues_batch (download : FetchRequest → List String)
    (req : FetchRequest) (rest : List FetchRequest)
    (h : checkResult (download req) = CheckOutcome.emptyError) :
    runBatch download (req :: rest) =
      CheckOutcome.emptyError :: runBatch download rest := by
  simp [runBatch, h, isException]

/-- C2 (witness): the amended theorem applied to a one-step batch whose
download leaves an empty file. -/
theorem reported_failure_continues_batch_witness :
    runBatch (fun _ => []) [⟨"9410583", "2023", "tides_9410583_2023.txt"⟩] =
      CheckOutcome.emptyError :: runBatch (fun _ => []) [] :=
  reported_failure_continues_batch (fun _ => [])
    ⟨"9410583", "2023", "tides_9410583_2023.txt"⟩ [] rfl

/-- C3: with the single argument "auto", the run issues exactly 35 fetch
requests — the cross product of the 7 hardcoded stations with the 5
consecutive years from the current year through the current year plus 4. -/
theorem auto_mode_produces_35_requests (prog : String) (current_year : Nat) :
    (mainRequests [prog, "auto"] current_year).length = 35 ∧
    tide_spots.length = 7 ∧
    mainRequests [prog, "auto"] current_year = autoRequests current_year ∧
    ∀ req : FetchRequest,
      req ∈ mainRequests [prog, "auto"] current_year ↔
        ∃ spot ∈ tide_spots, ∃ y : Nat,
          current_year ≤ y ∧ y < current_year + 5 ∧
          req = ⟨spot, toString y, mkFileName spot (toString y)⟩ :=
  ⟨rfl, rfl, rfl, fun req => mem_autoRequests current_year req⟩

/-- C4: a saved file with at least 14 lines takes the success branch,
printing exactly the lines at 0-based offsets 3, 5 and 13, and every index
access is within bounds. -/
theorem fourteen_line_file_success (lines : List String)
    (h : 14 ≤ lines.length) :
    checkResult lines =
      CheckOutcome.success (lines.getD 3 "") (lines.getD 5 "") (lines.getD 13 "") ∧
    checkAccesses lines = [3, 5, 13] ∧
    ∀ i ∈ checkAccesses lines, i < lines.length := by
  have h0 : ¬ lines.length = 0 := by omega
  have h3 : 3 < lines.length := by omega
  have h5 : 5 < lines.length := by omega
  have ha : checkAccesses lines = [3, 5, 13] := by
    simp [checkAccesses, h0, h3, h5]
  refine ⟨checkResult_long lines h, ha, ?_⟩
  intro i hi
  rw [ha] at hi
  simp only [List.mem_cons, List.not_mem_nil, or_false] at hi
  rcases hi with rfl | rfl | rfl <;> omega

/-- C4 (witness): the success-branch theorem applied to a concrete
fourteen-line file. -/
theorem fourteen_line_file_success_witness :
    checkResult sampleLines =
      CheckOutcome.success (sampleLines.getD 3 "") (sampleLines.getD 5 "")
        (sampleLines.getD 13 "") ∧
    checkAccesses sampleLines = [3, 5, 13] ∧
    ∀ i ∈ checkAccesses sampleLines, i < sampleLines.length :=
  fourteen_line_file_success sampleLines (by decide)

/-- C5: a saved file with zero lines makes the validate step report the
empty-file error and perform no index access into its line list. -/
theorem empty_file_reports_error (lines : List String)
    (h : lines.length = 0) :
    checkResult lines = CheckOutcome.emptyError ∧ checkAccesses lines = [] :=
  ⟨checkResult_empty lines h, by simp [checkAccesses, h]⟩

/-- C5 (witness): the empty-file theorem applied to the empty line list. -/
theorem empty_file_reports_error_witness :
    checkResult ([] : List String) = CheckOutcome.emptyError ∧
    checkAccesses ([] : List String) = [] :=
  empty_file_reports_error [] rfl

/-- C6: with exactly two positional arguments, argument resolution yields
exactly one request carrying those arguments, and exactly that request is
fetched and validated. -/
theorem two_args_one_request (prog a b : String) (current_year : Nat)
    (download : FetchRequest → List String) :
    parseArgs [prog, a, b] = ParseAction.fetchOne ⟨a, b, mkFileName a b⟩ ∧
    mainRequests [prog, a, b] current_year = [⟨a, b, mkFileName a b⟩] ∧
    programOutcomes [prog, a, b] current_year download =
      [checkResult (download ⟨a, b, mkFileName a b⟩)] :=
  ⟨rfl, rfl, runBatch_singleton download ⟨a, b, mkFileName a b⟩⟩

/-- C7: every argument shape other than two positional arguments or the
single argument "auto" prints the help text, produces zero requests,
fetches and validates nothing, and raises no error. -/
theorem other_args_print_help (argv : List String) (current_year : Nat)
    (download : FetchRequest → List String) (h3 : argv.length ≠ 3)
    (h2 : ¬ (argv.length = 2 ∧ argv.getD 1 "" = "auto")) :
    parseArgs argv = ParseAction.help ∧
    consoleHelp argv = printHelpLines ∧
    mainRequests argv current_year = [] ∧
    programOutcomes argv current_year download = [] ∧
    exceptionEscapes argv current_year download = false := by
  have hp : parseArgs argv = ParseAction.help := by
    unfold parseArgs
    rw [if_neg h3]
    by_cases h2' : argv.length = 2
    · rw [if_pos h2', if_pos fun hc => h2 ⟨h2', hc⟩]
    · rw [if_neg h2']
  have hauto : isAuto argv = false := by
    unfold isAuto
    by_cases h2' : argv.length = 2
    · have hne : (argv.getD 1 "" == "auto") = false :=
        beq_eq_false_iff_ne.mpr fun hc => h2 ⟨h2', hc⟩
      rw [hne, Bool.and_false]
    · rw [beq_eq_false_iff_ne.mpr h2', Bool.false_and]
  have hreq : mainRequests argv current_year = [] := by
    simp [mainRequests, hp, hauto]
  have hout : programOutcomes argv current_year download = [] := by
    rw [programOutcomes, hreq]
    rfl
  refine ⟨hp, by simp [consoleHelp, hp], hreq, hout, ?_⟩
  rw [exceptionEscapes, hout]
  rfl

/-- C7 (witness): the usage-help theorem applied to a run with no
positional argument at all. -/
theorem other_args_print_help_witness :
    parseArgs ["tide_grabber.py"] = ParseAction.help ∧
    consoleHelp ["tide_grabber.py"] = printHelpLines ∧
    mainRequests ["tide_grabber.py"] 2023 = [] ∧
    programOutcomes ["tide_grabber.py"] 2023 (fun _ => []) = [] ∧
    exceptionEscapes ["tide_grabber.py"] 2023 (fun _ => []) = false :=
  other_args_print_help ["tide_grabber.py"] 2023 (fun _ => [])
    (by decide) (by decide)

/-- C8: the file name is the deterministic concatenation
tides_. station ._. year ..txt, and every request a run issues — in
single-request mode as in auto mode — carries exactly that derived name. -/
theorem filename_is_pure_concatenation (prog a b : String)
    (current_year : Nat) :
    mkFileName a b = "tides_" ++ a ++ "_" ++ b ++ ".txt" ∧
    (∀ req ∈ mainRequests [prog, a, b] current_year,
      req.file_name = mkFileName req.station_id req.year) ∧
    ∀ req ∈ mainRequests [prog, "auto"] current_year,
      req.file_name = mkFileName req.station_id req.year := by
  refine ⟨rfl, ?_, ?_⟩
  · intro req hreq
    have he : mainRequests [prog, a, b] current_year =
        [⟨a, b, mkFileName a b⟩] := rfl
    rw [he, List.mem_singleton] at hreq
    subst hreq
    rfl
  · intro req hreq
    have he : mainRequests [prog, "auto"] current_year =
        autoRequests current_year := rfl
    rw [he] at hreq
    obtain ⟨spot, -, y, -, -, rfl⟩ := (mem_autoRequests current_year req).mp hreq
    rfl

/-- C9: a saved file of 1 to 13 lines makes the validate step raise an
uncaught IndexError at the first out-of-bounds subscript, reporting neither
a success nor an empty-file error. -/
theorem short_file_uncaught_index_error (lines : List String)
    (h1 : 1 ≤ lines.length) (h2 : lines.length ≤ 13) :
    checkResult lines = CheckOutcome.indexError
      (if lines.length ≤ 3 then 3 else if lines.length ≤ 5 then 5 else 13) ∧
    isException (checkResult lines) = true ∧
    checkResult lines ≠ CheckOutcome.emptyError ∧
    ∀ a b c : String, checkResult lines ≠ CheckOutcome.success a b c := by
  have hr := checkResult_short lines h1 h2
  refine ⟨hr, by rw [hr]; rfl, by rw [hr]; simp, ?_⟩
  intro a b c
  rw [hr]
  simp

/-- C9 (witness): the short-file theorem applied to a one-line file, where
the subscript at offset 3 raises. -/
theorem short_file_uncaught_index_error_witness :
    checkResult ["a"] = CheckOutcome.indexError 3 ∧
    isException (checkResult ["a"]) = true := by
  have h := short_file_uncaught_index_error ["a"] (by decide) (by decide)
  exact ⟨by simpa using h.1, h.2.1⟩

/-- C10: with exactly two positional arguments, argument resolution stores
both strings verbatim with no validation — a non-numeric year included —
and never takes the usage-help branch. -/
theorem two_args_never_validated (prog a b : String) :
    (∃ req : FetchRequest,
      parseArgs [prog, a, b] = ParseAction.fetchOne req ∧
      req.station_id = a ∧ req.year = b ∧ req.file_name = mkFileName a b) ∧
    parseArgs [prog, a, b] ≠ ParseAction.help ∧
    parseArgs [prog, a, b] ≠ ParseAction.noAction := by
  refine ⟨⟨⟨a, b, mkFileName a b⟩, parseArgs_two prog a b, rfl, rfl, rfl⟩, ?_, ?_⟩ <;>
    simp [parseArgs_two]
